import Mathlib

/-!
Shallow embedding of the bedrud-backend authentication subsystem.

The Go source is embedded as executable Lean definitions:
  * `auth.Claims`, `GenerateToken`, `ValidateToken`, `GenerateTokenPair`
    embed `internal/auth` (JWT codec, golang-jwt/v5 semantics:
    keyfunc alg check, then signature verification, then expiry check;
    `iat` is not validated by default in jwt v5).
  * `UserRepository.*` embeds `internal/repository/user_repository.go`
    over an explicit database state `DB`; the gorm `uniqueIndex` tags on
    `users.email` and `blocked_refresh_tokens.token` become explicit
    duplicate checks on `Create`.
  * `AuthService.*` embeds `internal/auth` service methods,
    `AuthHandler.*` and the middleware embed the fiber handlers.

Wall-clock time is a `Nat` of seconds passed explicitly (`time.Now()`
becomes a `now` parameter); `uuid.New().String()` becomes an explicitly
passed fresh identifier.  HMAC-SHA256 signing is modelled as a perfect
MAC: a signature is the record of the key, algorithm and payload it was
computed over, and verification recomputes and compares, which is
executable and injective exactly like an ideal MAC.  bcrypt is modelled
as a deterministic one-way tag; no claim depends on hash internals.
-/

/-- Auth section of `config.Config`: `JWTSecret` and `TokenDuration` (hours). -/
structure AuthConfig where
  jwtSecret : String
  tokenDuration : Nat
deriving DecidableEq, Repr

/-- `config.Config`, restricted to the fields the auth subsystem reads. -/
structure Config where
  auth : AuthConfig
deriving DecidableEq, Repr

namespace auth

/-- `auth.Claims`: custom claims plus the registered claims the code sets
(`ExpiresAt`, `IssuedAt`, `ID`).  `jti` is `""` when the `ID` registered
claim is absent (access tokens). -/
structure Claims where
  userID : String
  email : String
  provider : String
  accesses : List String
  expiresAt : Nat
  issuedAt : Nat
  jti : String
deriving DecidableEq, Repr

/-- An ideal-MAC signature: records the key, header algorithm and signed
payload.  Verification recomputes this value and compares. -/
structure Sig where
  key : String
  alg : String
  payload : Claims
deriving DecidableEq, Repr

/-- A compact signed token: header algorithm, claims payload, signature. -/
structure Token where
  alg : String
  claims : Claims
  sig : Sig
deriving DecidableEq, Repr

/-- `jwt.SigningMethodHS256.Sign` via `token.SignedString(secret)`. -/
def signToken (secret : String) (alg : String) (c : Claims) : Token :=
  { alg := alg, claims := c, sig := { key := secret, alg := alg, payload := c } }

/-- The algorithms whose `jwt.GetSigningMethod` result is a
`*jwt.SigningMethodHMAC`: the symmetric HMAC family. -/
def hmacAlgs : List String := ["HS256", "HS384", "HS512"]

/-- `auth.GenerateToken`: claims with `expiresAt = now + TokenDuration
hours`, `issuedAt = now`, no `ID`, signed HS256 with the config secret. -/
def GenerateToken (now : Nat) (userID email provider : String)
    (accesses : List String) (cfg : Config) : Token :=
  signToken cfg.auth.jwtSecret "HS256"
    { userID := userID, email := email, provider := provider,
      accesses := accesses,
      expiresAt := now + cfg.auth.tokenDuration * 3600,
      issuedAt := now, jti := "" }

/-- `auth.ValidateToken`: `jwt.ParseWithClaims` with a keyfunc rejecting
any non-HMAC signing method, then (jwt v5 order) signature verification
against the shared secret, then expiry validation (`exp` valid iff
`now < exp`; `iat` is not checked by the default v5 validator). -/
def ValidateToken (now : Nat) (tok : Token) (cfg : Config) :
    Except String Claims :=
  if ¬ hmacAlgs.contains tok.alg then
    .error ("unexpected signing method: " ++ tok.alg)
  else if tok.sig ≠ { key := cfg.auth.jwtSecret, alg := tok.alg,
                      payload := tok.claims : Sig } then
    .error "token signature is invalid"
  else if tok.claims.expiresAt ≤ now then
    .error "token has invalid claims: token is expired"
  else
    .ok tok.claims

/-- `auth.GenerateTokenPair`: access token via `GenerateToken` with
provider `"local"`; refresh token with a fixed `now + 7*24h` expiry, a
fresh uuid in the `ID` registered claim, signed HS256 with the same
secret.  `jti` is the freshly generated `uuid.New().String()`. -/
def GenerateTokenPair (now : Nat) (userID email : String)
    (accesses : List String) (cfg : Config) (jti : String) :
    Token × Token :=
  let accessToken := GenerateToken now userID email "local" accesses cfg
  let refreshClaims : Claims :=
    { userID := userID, email := email, provider := "local",
      accesses := accesses,
      expiresAt := now + 7 * 24 * 3600,
      issuedAt := now, jti := jti }
  (accessToken, signToken cfg.auth.jwtSecret "HS256" refreshClaims)

end auth

/-- `models.User` (fields the auth subsystem reads/writes).
`refreshToken` is the single persisted refresh-token slot
(`refresh_token` column), `none` when empty. -/
structure User where
  id : String
  email : String
  name : String
  provider : String
  avatarURL : String
  password : String
  refreshToken : Option auth.Token
  accesses : List String
  isActive : Bool
  createdAt : Nat
  updatedAt : Nat
deriving DecidableEq, Repr

/-- `models.BlockedRefreshToken`: one revocation-ledger row.  The gorm
tag on `Token` is `uniqueIndex`. -/
structure BlockedRefreshToken where
  id : String
  token : auth.Token
  userID : String
  expiresAt : Nat
  createdAt : Nat
deriving DecidableEq, Repr

/-- The relational store consumed by `UserRepository`: the `users` table
and the `blocked_refresh_tokens` table. -/
structure DB where
  users : List User
  blocked : List BlockedRefreshToken
deriving DecidableEq, Repr

namespace UserRepository

/-- `UserRepository.GetUserByEmail`: `WHERE email = ?`, first row;
`(nil, nil)` on `ErrRecordNotFound` becomes `none`.  Note: no provider
filter. -/
def GetUserByEmail (db : DB) (email : String) : Option User :=
  db.users.find? (fun u => u.email == email)

/-- `UserRepository.GetUserByID`: `WHERE id = ?`, first row. -/
def GetUserByID (db : DB) (id : String) : Option User :=
  db.users.find? (fun u => u.id == id)

/-- `UserRepository.CreateUser`: `db.Create(user)`; the `uniqueIndex` on
`users.email` makes the insert fail when the email is already present. -/
def CreateUser (db : DB) (u : User) : Except String DB :=
  if db.users.any (fun v => v.email == u.email) then
    .error "duplicated key not allowed"
  else
    .ok { db with users := db.users ++ [u] }

/-- `UserRepository.UpdateRefreshToken`: `UPDATE users SET refresh_token
WHERE id = ?` (no error when zero rows match). -/
def UpdateRefreshToken (db : DB) (userID : String) (tok : auth.Token) :
    DB :=
  { db with
    users := db.users.map fun u =>
      if u.id == userID then { u with refreshToken := some tok } else u }

/-- `UserRepository.BlockRefreshToken`: builds a `BlockedRefreshToken`
with a fresh uuid and `db.Create`s it; the `uniqueIndex` on
`blocked_refresh_tokens.token` makes the insert fail when the token
value is already in the ledger. -/
def BlockRefreshToken (db : DB) (userID : String) (tok : auth.Token)
    (expiresAt : Nat) (freshID : String) (now : Nat) :
    Except String DB :=
  if db.blocked.any (fun b => b.token == tok) then
    .error "duplicated key not allowed"
  else
    .ok { db with
          blocked := db.blocked ++
            [{ id := freshID, token := tok, userID := userID,
               expiresAt := expiresAt, createdAt := now }] }

/-- `UserRepository.IsRefreshTokenBlocked`: counts rows with
`token = ? AND expires_at > now`; `true` iff the count is positive. -/
def IsRefreshTokenBlocked (db : DB) (now : Nat) (tok : auth.Token) :
    Bool :=
  db.blocked.any (fun b => b.token == tok && now < b.expiresAt)

end UserRepository

/-- Deterministic model of `bcrypt.GenerateFromPassword`: a one-way tag
of the password.  No claim depends on hash internals. -/
def bcryptHashOf (password : String) : String :=
  "bcrypt2a10" ++ password

/-- `bcrypt.CompareHashAndPassword` as a Boolean check against the
modelled hash. -/
def bcryptMatches (hash password : String) : Bool :=
  hash == bcryptHashOf password

namespace AuthService

/-- `AuthService.Register`: look up by email only; error
`"user already exists"` when any row with that email exists (regardless
of provider); otherwise build the user (bcrypt-hashed password, provider
`"local"`, accesses `["user"]`, active) and `CreateUser` it. -/
def Register (db : DB) (now : Nat) (freshID : String)
    (email password name : String) : Except String (DB × User) :=
  match UserRepository.GetUserByEmail db email with
  | some _ => .error "user already exists"
  | none =>
    let user : User :=
      { id := freshID, email := email, name := name, provider := "local",
        avatarURL := "", password := bcryptHashOf password,
        refreshToken := none, accesses := ["user"], isActive := true,
        createdAt := now, updatedAt := now }
    match UserRepository.CreateUser db user with
    | .error e => .error e
    | .ok db2 => .ok (db2, user)

/-- `AuthService.Login`: email lookup, bcrypt comparison, mint a pair
via `GenerateTokenPair`, persist the refresh token into the user's
single slot, return user and tokens.  The active flag is NOT checked
here. -/
def Login (db : DB) (now : Nat) (cfg : Config) (jti : String)
    (email password : String) :
    Except String (DB × User × auth.Token × auth.Token) :=
  match UserRepository.GetUserByEmail db email with
  | none => .error "user not found"
  | some user =>
    if ¬ bcryptMatches user.password password then
      .error "invalid password"
    else
      let pair := auth.GenerateTokenPair now user.id user.email
        user.accesses cfg jti
      let db2 := UserRepository.UpdateRefreshToken db user.id pair.2
      .ok (db2, user, pair.1, pair.2)

/-- `AuthService.ValidateRefreshToken`: the Revocation Ledger membership
check runs first; only when the token is not blocked is the Token Codec
`ValidateToken` consulted. -/
def ValidateRefreshToken (db : DB) (now : Nat) (cfg : Config)
    (tok : auth.Token) : Except String auth.Claims :=
  if UserRepository.IsRefreshTokenBlocked db now tok then
    .error "refresh token has been revoked"
  else
    auth.ValidateToken now tok cfg

/-- `AuthService.UpdateUserAccesses`: read the user, overwrite its
accesses, `Save` it back (which also bumps `UpdatedAt`). -/
def UpdateUserAccesses (db : DB) (userID : String)
    (accesses : List String) (now : Nat) : DB :=
  { db with
    users := db.users.map fun u =>
      if u.id == userID then
        { u with accesses := accesses, updatedAt := now }
      else u }

end AuthService

/-- Outcome of a fiber handler/middleware invocation.  `panicked` models
a Go runtime panic (e.g. a failed type assertion), which is neither a
`next` pass-through nor a JSON error response. -/
inductive HandlerResult where
  | next : HandlerResult
  | jsonError : Nat → String → HandlerResult
  | panicked : String → HandlerResult
deriving DecidableEq, Repr

namespace middleware

/-- `middleware.Protected`: 401 on a missing Authorization credential,
401 on codec failure, otherwise attach the verified claims as the
`"user"` local and pass through.  Returns the handler outcome together
with the `"user"` local it leaves in the request context. -/
def Protected (now : Nat) (cfg : Config) (header : Option auth.Token) :
    HandlerResult × Option auth.Claims :=
  match header with
  | none => (.jsonError 401 "Missing authorization header", none)
  | some tok =>
    match auth.ValidateToken now tok cfg with
    | .error _ => (.jsonError 401 "Invalid token", none)
    | .ok claims => (.next, some claims)

/-- `middleware.RequireAccess`: reads the `"user"` local and performs an
unchecked type assertion to `*auth.Claims` — a missing local makes the
assertion panic.  With claims present, passes through iff the required
label is literally an element of `claims.Accesses` (string equality),
else 403. -/
def RequireAccess (requiredAccess : String)
    (localsUser : Option auth.Claims) : HandlerResult :=
  match localsUser with
  | none => .panicked "interface conversion: nil user local"
  | some claims =>
    if claims.accesses.contains requiredAccess then .next
    else .jsonError 403 "Insufficient access rights"

end middleware

namespace AuthHandler

/-- `AuthHandler.Login`: delegate to `AuthService.Login` (any error
becomes 401 "Invalid credentials"), THEN check the active flag and turn
an inactive account into 403 "Account is deactivated".  Returns the
database state after the call together with the response; on the
deactivated path the service has already persisted the new refresh
token. -/
def Login (db : DB) (now : Nat) (cfg : Config) (jti : String)
    (email password : String) :
    DB × Except (Nat × String) (User × auth.Token × auth.Token) :=
  match AuthService.Login db now cfg jti email password with
  | .error _ => (db, .error (401, "Invalid credentials"))
  | .ok (db2, user, a, r) =>
    if ¬ user.isActive then
      (db2, .error (403, "Account is deactivated"))
    else
      (db2, .ok (user, a, r))

/-- `AuthHandler.RefreshToken`: validate via
`AuthService.ValidateRefreshToken` (401 on failure), mint a new pair
from the claims carried in the presented token (accesses come from
`claims.Accesses`, not from the store), persist the new refresh token,
return the pair. -/
def RefreshToken (db : DB) (now : Nat) (cfg : Config) (jti : String)
    (input : auth.Token) :
    Except (Nat × String) (DB × auth.Token × auth.Token) :=
  match AuthService.ValidateRefreshToken db now cfg input with
  | .error _ => .error (401, "Invalid or expired refresh token")
  | .ok claims =>
    let pair := auth.GenerateTokenPair now claims.userID claims.email
      claims.accesses cfg jti
    let db2 := UserRepository.UpdateRefreshToken db claims.userID pair.2
    .ok (db2, pair.1, pair.2)

end AuthHandler

/-! ## Helper lemmas -/

/-- `find?` commutes with a `map` whose function preserves the predicate. -/
theorem find?_map_pres {α : Type} (p : α → Bool) (f : α → α)
    (h : ∀ x, p (f x) = p x) (l : List α) :
    (l.map f).find? p = (l.find? p).map f := by
  induction l with
  | nil => rfl
  | cons a t ih =>
    by_cases hp : p a
    · simp [List.find?, h, hp]
    · simp only [List.map, List.find?, h a, Bool.not_eq_true] at *
      simp [hp, ih]

/-- A successful `ValidateToken` always returns exactly the claims
carried in the presented token. -/
theorem validateToken_ok_eq (now : Nat) (tok : auth.Token) (cfg : Config)
    (c : auth.Claims) (h : auth.ValidateToken now tok cfg = .ok c) :
    c = tok.claims := by
  unfold auth.ValidateToken at h
  split at h
  · exact absurd h (by simp)
  · split at h
    · exact absurd h (by simp)
    · split at h
      · exact absurd h (by simp)
      · exact (Except.ok.injEq _ _ |>.mp h.symm) ▸ rfl

/-! ## C1 -/

/-- C1: any token present in the Revocation Ledger with a recorded
expiry still in the future makes `ValidateRefreshToken` fail with the
revoked error; the ledger check runs before Token Codec verification,
so this holds regardless of whether the token would verify. -/
theorem C1_refresh_revoked_before_codec (db : DB) (now : Nat)
    (cfg : Config) (tok : auth.Token) (b : BlockedRefreshToken)
    (hmem : b ∈ db.blocked) (htok : b.token = tok)
    (hfuture : now < b.expiresAt) :
    AuthService.ValidateRefreshToken db now cfg tok =
      .error "refresh token has been revoked" := by
  have hblocked : UserRepository.IsRefreshTokenBlocked db now tok = true := by
    unfold UserRepository.IsRefreshTokenBlocked
    rw [List.any_eq_true]
    exact ⟨b, hmem, by simp [htok, hfuture]⟩
  unfold AuthService.ValidateRefreshToken
  simp [hblocked]

def c1Cfg : Config := ⟨⟨"topsecret", 24⟩⟩

def c1Tok : auth.Token :=
  auth.GenerateToken 0 "u1" "a@x.com" "local" ["user"] c1Cfg

def c1Entry : BlockedRefreshToken := ⟨"b1", c1Tok, "u1", 604800, 0⟩

def c1DB : DB := ⟨[], [c1Entry]⟩

/-- C1 witness: a concrete revoked token that still verifies at the
codec is nevertheless rejected as revoked. -/
theorem C1_witness :
    auth.ValidateToken 3600 c1Tok c1Cfg = .ok c1Tok.claims ∧
    AuthService.ValidateRefreshToken c1DB 3600 c1Cfg c1Tok =
      .error "refresh token has been revoked" :=
  ⟨by rfl,
   C1_refresh_revoked_before_codec c1DB 3600 c1Cfg c1Tok c1Entry
     (List.mem_singleton.mpr rfl) rfl (by decide)⟩

/-! ## C4 -/

/-- C4: for any subject id, email, provider, capability list and config
with positive token duration, `ValidateToken` applied to
`GenerateToken`'s output under the same secret, evaluated before the
expiry, succeeds with claims equal to the issuing inputs. -/
theorem C4_issue_verify_round_trip (now nowV : Nat)
    (uid email prov : String) (acc : List String) (cfg : Config)
    (hdur : 0 < cfg.auth.tokenDuration)
    (hbefore : nowV < now + cfg.auth.tokenDuration * 3600) :
    ∃ c, auth.ValidateToken nowV
        (auth.GenerateToken now uid email prov acc cfg) cfg = .ok c ∧
      c.userID = uid ∧ c.email = email ∧ c.provider = prov ∧
      c.accesses = acc := by
  refine ⟨⟨uid, email, prov, acc, now + cfg.auth.tokenDuration * 3600,
    now, ""⟩, ?_, rfl, rfl, rfl, rfl⟩
  unfold auth.ValidateToken auth.GenerateToken auth.signToken
  rw [if_neg (show ¬¬(auth.hmacAlgs.contains "HS256" = true) by decide),
    if_neg (by simp), if_neg (Nat.not_le.mpr hbefore)]

/-- C4 witness at a concrete claim set and configuration. -/
theorem C4_witness :
    (0 < (c1Cfg.auth.tokenDuration) ∧ 10 < 0 + c1Cfg.auth.tokenDuration * 3600) ∧
    ∃ c, auth.ValidateToken 10
        (auth.GenerateToken 0 "u1" "a@x.com" "local" ["user"] c1Cfg) c1Cfg = .ok c ∧
      c.userID = "u1" ∧ c.email = "a@x.com" ∧ c.provider = "local" ∧
      c.accesses = ["user"] :=
  ⟨⟨by decide, by decide⟩,
   C4_issue_verify_round_trip 0 10 "u1" "a@x.com" "local" ["user"] c1Cfg
     (by decide) (by decide)⟩

/-! ## C5 -/

/-- C5: a token whose header algorithm is outside the symmetric HMAC
family is rejected by `ValidateToken` with the unexpected-signing-method
error, whatever its payload and signature. -/
theorem C5_non_hmac_alg_rejected (now : Nat) (tok : auth.Token)
    (cfg : Config) (h : auth.hmacAlgs.contains tok.alg = false) :
    auth.ValidateToken now tok cfg =
      .error ("unexpected signing method: " ++ tok.alg) := by
  unfold auth.ValidateToken
  rw [if_pos (by rw [h]; exact Bool.false_ne_true)]

def c5Claims : auth.Claims :=
  ⟨"u1", "a@x.com", "local", ["user", "admin"], 604800, 0, ""⟩

/-- A token declaring `alg = "none"` over a payload signed (correctly,
with the shared secret) — still rejected on the algorithm check. -/
def c5TokNone : auth.Token := auth.signToken "topsecret" "none" c5Claims

/-- A token declaring `alg = "RS256"`. -/
def c5TokRS : auth.Token := auth.signToken "topsecret" "RS256" c5Claims

/-- C5 witness: concrete `"none"`- and `"RS256"`-algorithm tokens are
rejected. -/
theorem C5_witness :
    (auth.hmacAlgs.contains c5TokNone.alg = false ∧
     auth.ValidateToken 0 c5TokNone c1Cfg =
       .error ("unexpected signing method: " ++ c5TokNone.alg)) ∧
    (auth.hmacAlgs.contains c5TokRS.alg = false ∧
     auth.ValidateToken 0 c5TokRS c1Cfg =
       .error ("unexpected signing method: " ++ c5TokRS.alg)) :=
  ⟨⟨by decide, C5_non_hmac_alg_rejected 0 c5TokNone c1Cfg (by decide)⟩,
   ⟨by decide, C5_non_hmac_alg_rejected 0 c5TokRS c1Cfg (by decide)⟩⟩

/-! ## C7 -/

/-- C7: the refresh token minted by `GenerateTokenPair` expires exactly
7 days after its issued-at, embeds the freshly generated identifier in
its `jti`, and does not depend on the configured token duration (any two
configs sharing the secret yield the same refresh token). -/
theorem C7_refresh_token_fixed_7day_lifetime (now : Nat)
    (uid email : String) (acc : List String) (cfg cfg2 : Config)
    (jti : String) (hsecret : cfg.auth.jwtSecret = cfg2.auth.jwtSecret) :
    ((auth.GenerateTokenPair now uid email acc cfg jti).2).claims.expiresAt =
      ((auth.GenerateTokenPair now uid email acc cfg jti).2).claims.issuedAt
        + 7 * 24 * 3600 ∧
    ((auth.GenerateTokenPair now uid email acc cfg jti).2).claims.jti = jti ∧
    (auth.GenerateTokenPair now uid email acc cfg2 jti).2 =
      (auth.GenerateTokenPair now uid email acc cfg jti).2 := by
  refine ⟨rfl, rfl, ?_⟩
  unfold auth.GenerateTokenPair auth.signToken
  rw [hsecret]

/-- C7 witness: two concrete configs sharing the secret but with token
durations 24h and 1h mint the same refresh token, with 7-day expiry and
the supplied fresh id. -/
theorem C7_witness :
    (⟨⟨"topsecret", 24⟩⟩ : Config).auth.jwtSecret =
      (⟨⟨"topsecret", 1⟩⟩ : Config).auth.jwtSecret ∧
    ((auth.GenerateTokenPair 5 "u1" "a@x.com" ["user"]
        ⟨⟨"topsecret", 24⟩⟩ "jti-1").2).claims.expiresAt =
      ((auth.GenerateTokenPair 5 "u1" "a@x.com" ["user"]
        ⟨⟨"topsecret", 24⟩⟩ "jti-1").2).claims.issuedAt + 7 * 24 * 3600 ∧
    ((auth.GenerateTokenPair 5 "u1" "a@x.com" ["user"]
        ⟨⟨"topsecret", 24⟩⟩ "jti-1").2).claims.jti = "jti-1" ∧
    (auth.GenerateTokenPair 5 "u1" "a@x.com" ["user"]
        ⟨⟨"topsecret", 1⟩⟩ "jti-1").2 =
      (auth.GenerateTokenPair 5 "u1" "a@x.com" ["user"]
        ⟨⟨"topsecret", 24⟩⟩ "jti-1").2 := by
  have h := C7_refresh_token_fixed_7day_lifetime 5 "u1" "a@x.com" ["user"]
    ⟨⟨"topsecret", 24⟩⟩ ⟨⟨"topsecret", 1⟩⟩ "jti-1" rfl
  exact ⟨rfl, h.1, h.2.1, h.2.2⟩

/-! ## C8 -/

/-- C8: with verified claims attached, `RequireAccess` passes the
request through iff the required label is literally an element of the
claims' capability list (exact string equality), and otherwise fails
with Forbidden (403). -/
theorem C8_require_access_literal_membership (req : String)
    (c : auth.Claims) :
    (middleware.RequireAccess req (some c) = .next ↔ req ∈ c.accesses) ∧
    (middleware.RequireAccess req (some c) =
        .jsonError 403 "Insufficient access rights" ↔ req ∉ c.accesses) := by
  by_cases h : req ∈ c.accesses
  · have hb : c.accesses.contains req = true := by simpa using h
    simp [middleware.RequireAccess, hb, h]
  · have hb : c.accesses.contains req = false := by simpa using h
    simp [middleware.RequireAccess, hb, h]

/-- C8 witness: a claims object holding exactly `"user"` passes the
`"user"` gate and is rejected 403 at the `"admin"` gate. -/
theorem C8_witness :
    middleware.RequireAccess "user" (some c5Claims) = .next ∧
    middleware.RequireAccess "superadmin" (some c5Claims) =
      .jsonError 403 "Insufficient access rights" :=
  ⟨(C8_require_access_literal_membership "user" c5Claims).1.mpr (by decide),
   (C8_require_access_literal_membership "superadmin" c5Claims).2.mpr
     (by decide)⟩

/-! ## C9 -/

/-- C9: `RequireAccess` on a context with no `"user"` local panics on
the unchecked type assertion — it returns neither a Forbidden nor an
Unauthorized JSON error; with claims attached (as `Protected` leaves on
success) it never panics. -/
theorem C9_require_access_panics_without_claims :
    (∀ req, middleware.RequireAccess req none =
      .panicked "interface conversion: nil user local") ∧
    (∀ req code msg,
      middleware.RequireAccess req none ≠ .jsonError code msg) ∧
    (∀ req c s, middleware.RequireAccess req (some c) ≠ .panicked s) ∧
    (∀ now cfg header c,
      (middleware.Protected now cfg header).2 = some c →
      ∀ req s, middleware.RequireAccess req (some c) ≠ .panicked s) := by
  refine ⟨fun req => rfl, fun req code msg => by simp [middleware.RequireAccess],
    fun req c s => ?_, fun now cfg header c _ req s => ?_⟩
  all_goals
    simp only [middleware.RequireAccess]
    split <;> simp

/-- C9 witness at a concrete required label. -/
theorem C9_witness :
    middleware.RequireAccess "admin" none =
      .panicked "interface conversion: nil user local" ∧
    middleware.RequireAccess "admin" none ≠
      .jsonError 403 "Insufficient access rights" :=
  ⟨C9_require_access_panics_without_claims.1 "admin",
   C9_require_access_panics_without_claims.2.1 "admin" 403
     "Insufficient access rights"⟩

/-! ## C6 -/

/-- C6: a successful refresh mints tokens whose capability claims are
exactly the `Accesses` carried in the presented refresh token's claims;
the stored capability set is never consulted, so a run against the
database and a run against the same database after
`UpdateUserAccesses` produce identical token pairs. -/
theorem C6_refresh_capability_isolation (db : DB) (now : Nat)
    (cfg : Config) (jti : String) (tok : auth.Token) (userID : String)
    (newAcc : List String) (nowU : Nat)
    (hok : ∃ c, AuthService.ValidateRefreshToken db now cfg tok = .ok c) :
    ∃ d1 d2 a r,
      AuthHandler.RefreshToken db now cfg jti tok = .ok (d1, a, r) ∧
      AuthHandler.RefreshToken
        (AuthService.UpdateUserAccesses db userID newAcc nowU)
        now cfg jti tok = .ok (d2, a, r) ∧
      a.claims.accesses = tok.claims.accesses ∧
      r.claims.accesses = tok.claims.accesses := by
  obtain ⟨c, hc⟩ := hok
  have hceq : c = tok.claims := by
    unfold AuthService.ValidateRefreshToken at hc
    split at hc
    · exact absurd hc (by simp)
    · exact validateToken_ok_eq now tok cfg c hc
  subst hceq
  have hc2 : AuthService.ValidateRefreshToken
      (AuthService.UpdateUserAccesses db userID newAcc nowU) now cfg tok =
      .ok tok.claims := hc
  refine ⟨UserRepository.UpdateRefreshToken db tok.claims.userID
      (auth.GenerateTokenPair now tok.claims.userID tok.claims.email
        tok.claims.accesses cfg jti).2,
    UserRepository.UpdateRefreshToken
      (AuthService.UpdateUserAccesses db userID newAcc nowU)
      tok.claims.userID
      (auth.GenerateTokenPair now tok.claims.userID tok.claims.email
        tok.claims.accesses cfg jti).2,
    (auth.GenerateTokenPair now tok.claims.userID tok.claims.email
      tok.claims.accesses cfg jti).1,
    (auth.GenerateTokenPair now tok.claims.userID tok.claims.email
      tok.claims.accesses cfg jti).2, ?_, ?_, rfl, rfl⟩
  · unfold AuthHandler.RefreshToken
    rw [hc]
  · unfold AuthHandler.RefreshToken
    rw [hc2]

/-- C6 witness: a concrete valid refresh token carried through two runs,
the second after an administrative capability update. -/
theorem C6_witness :
    ∃ d1 d2 a r,
      AuthHandler.RefreshToken (⟨[], []⟩ : DB) 3600 c1Cfg "j2" c1Tok =
        .ok (d1, a, r) ∧
      AuthHandler.RefreshToken
        (AuthService.UpdateUserAccesses (⟨[], []⟩ : DB) "u1" ["admin"] 3600)
        3600 c1Cfg "j2" c1Tok = .ok (d2, a, r) ∧
      a.claims.accesses = c1Tok.claims.accesses ∧
      r.claims.accesses = c1Tok.claims.accesses :=
  C6_refresh_capability_isolation ⟨[], []⟩ 3600 c1Cfg "j2" c1Tok "u1"
    ["admin"] 3600 ⟨c1Tok.claims, by rfl⟩

/-! ## C2 -/

def c2Tok : auth.Token :=
  auth.signToken "topsecret" "HS256"
    ⟨"u1", "a@x.com", "local", ["user"], 604800, 0, "jti-r1"⟩

def c2Entry : BlockedRefreshToken := ⟨"b1", c2Tok, "u1", 604800, 0⟩

def c2DB1 : DB := ⟨[], [c2Entry]⟩

/-- C2 counterexample: revocation is NOT an idempotent no-op.  The first
`BlockRefreshToken` on a fresh ledger succeeds; the second call with the
same token value hits the unique index on
`blocked_refresh_tokens.token` and returns an error instead of
succeeding. -/
theorem C2_counterexample :
    UserRepository.BlockRefreshToken (⟨[], []⟩ : DB) "u1" c2Tok 604800
      "b1" 0 = .ok c2DB1 ∧
    UserRepository.BlockRefreshToken c2DB1 "u1" c2Tok 604800 "b2" 1 =
      .error "duplicated key not allowed" :=
  ⟨rfl, rfl⟩

/-- C2 amended: after a first successful revocation of a token value not
yet in the ledger, exactly one ledger entry for that value exists and
`IsRefreshTokenBlocked` is `true` (while the recorded expiry lies in the
future); but a second `BlockRefreshToken` with the same token value
fails with a duplicate-key error rather than succeeding as a no-op. -/
theorem C2_amended_second_revoke_errors (db : DB) (uid1 uid2 : String)
    (tok : auth.Token) (e1 e2 : Nat) (id1 id2 : String) (n1 n2 nQ : Nat)
    (hfresh : db.blocked.any (fun b => b.token == tok) = false)
    (hlive : nQ < e1) :
    ∃ db2,
      UserRepository.BlockRefreshToken db uid1 tok e1 id1 n1 = .ok db2 ∧
      (db2.blocked.filter (fun b => b.token == tok)).length = 1 ∧
      UserRepository.IsRefreshTokenBlocked db2 nQ tok = true ∧
      UserRepository.BlockRefreshToken db2 uid2 tok e2 id2 n2 =
        .error "duplicated key not allowed" := by
  refine ⟨{ db with blocked := db.blocked ++
      [{ id := id1, token := tok, userID := uid1,
         expiresAt := e1, createdAt := n1 }] }, ?_, ?_, ?_, ?_⟩
  · simp [UserRepository.BlockRefreshToken, hfresh]
  · have hnil : db.blocked.filter (fun b => b.token == tok) = [] := by
      rw [List.filter_eq_nil_iff]
      intro b hb
      simp only [List.any_eq_false] at hfresh
      simpa using hfresh b hb
    simp [List.filter_append, hnil]
  · simp [UserRepository.IsRefreshTokenBlocked, List.any_append, hlive]
  · simp [UserRepository.BlockRefreshToken, List.any_append]

/-- C2 amended witness at a concrete ledger and token. -/
theorem C2_amended_witness :
    ∃ db2,
      UserRepository.BlockRefreshToken (⟨[], []⟩ : DB) "u1" c2Tok 604800
        "b1" 0 = .ok db2 ∧
      (db2.blocked.filter (fun b => b.token == c2Tok)).length = 1 ∧
      UserRepository.IsRefreshTokenBlocked db2 0 c2Tok = true ∧
      UserRepository.BlockRefreshToken db2 "u2" c2Tok 604800 "b2" 1 =
        .error "duplicated key not allowed" :=
  C2_amended_second_revoke_errors ⟨[], []⟩ "u1" "u2" c2Tok 604800 604800
    "b1" "b2" 0 1 0 rfl (by decide)

/-! ## C3 -/

def c3User : User :=
  ⟨"g1", "a@x.com", "A", "google", "", "", none, ["user"], true, 0, 0⟩

def c3DB : DB := ⟨[c3User], []⟩

/-- C3 counterexample: the registration existence check is by email
only.  A database holding only a non-local (google) identity with the
same email still makes `Register` fail with the already-exists error,
contradicting the claim that a non-local identity does not trigger it. -/
theorem C3_counterexample :
    c3DB.users.all (fun u => u.provider != "local") = true ∧
    AuthService.Register c3DB 0 "id-1" "a@x.com" "pw" "A" =
      .error "user already exists" :=
  ⟨by decide, rfl⟩

/-- C3 amended: `Register` fails with the already-exists error exactly
when some identity with the same email exists, regardless of that
identity's provider (the lookup ignores the provider column). -/
theorem C3_amended_already_exists_email_only (db : DB) (now : Nat)
    (fid email pw name : String) :
    AuthService.Register db now fid email pw name =
      .error "user already exists" ↔ ∃ u ∈ db.users, u.email = email := by
  cases hfind : UserRepository.GetUserByEmail db email with
  | some u =>
    have hu : u ∈ db.users := List.mem_of_find?_eq_some hfind
    have he : u.email = email := by simpa using List.find?_some hfind
    constructor
    · intro _
      exact ⟨u, hu, he⟩
    · intro _
      unfold AuthService.Register
      rw [hfind]
  | none =>
    have hnone : ∀ u ∈ db.users, ¬ u.email = email := by
      intro u hu
      simpa using List.find?_eq_none.mp hfind u hu
    have hany : db.users.any (fun v => v.email == email) = false := by
      rw [List.any_eq_false]
      intro v hv
      simpa using hnone v hv
    constructor
    · intro h
      unfold AuthService.Register at h
      rw [hfind] at h
      simp [UserRepository.CreateUser, hany] at h
    · rintro ⟨u, hu, he⟩
      exact absurd he (hnone u hu)

/-- C3 amended witness: the google-provider identity alone already
triggers the duplicate error for a local registration. -/
theorem C3_amended_witness :
    AuthService.Register c3DB 7 "id-2" "a@x.com" "pw" "B" =
      .error "user already exists" :=
  (C3_amended_already_exists_email_only c3DB 7 "id-2" "a@x.com" "pw"
    "B").mpr ⟨c3User, List.mem_singleton.mpr rfl, rfl⟩

/-! ## C10 -/

/-- The refresh token `AuthService.Login` mints and persists for user
`u`: the second component of `GenerateTokenPair` on `u`'s data. -/
def mintedRefresh (now : Nat) (u : User) (cfg : Config) (jti : String) :
    auth.Token :=
  (auth.GenerateTokenPair now u.id u.email u.accesses cfg jti).2

/-- C10: logging in with correct credentials for a deactivated account
returns the 403 deactivated error from the handler, yet the database it
leaves behind is the one the service already mutated: the user's
single-slot persisted refresh token now holds the freshly minted
refresh token, so stored state changes although the request fails. -/
theorem C10_login_persists_refresh_before_active_check (db : DB)
    (now : Nat) (cfg : Config) (jti : String) (email pw : String)
    (u : User)
    (hu : UserRepository.GetUserByEmail db email = some u)
    (hpw : bcryptMatches u.password pw = true)
    (hinactive : u.isActive = false) :
    (AuthHandler.Login db now cfg jti email pw).2 =
      .error (403, "Account is deactivated") ∧
    (AuthHandler.Login db now cfg jti email pw).1 =
      UserRepository.UpdateRefreshToken db u.id (mintedRefresh now u cfg jti) ∧
    UserRepository.GetUserByEmail
        (AuthHandler.Login db now cfg jti email pw).1 email =
      some { u with refreshToken := some (mintedRefresh now u cfg jti) } ∧
    (u.refreshToken ≠ some (mintedRefresh now u cfg jti) →
      (AuthHandler.Login db now cfg jti email pw).1 ≠ db) := by
  have hlog : AuthService.Login db now cfg jti email pw =
      .ok (UserRepository.UpdateRefreshToken db u.id
            (mintedRefresh now u cfg jti),
          u,
          (auth.GenerateTokenPair now u.id u.email u.accesses cfg jti).1,
          mintedRefresh now u cfg jti) := by
    unfold AuthService.Login
    rw [hu]
    simp [hpw, mintedRefresh]
  have hhand : AuthHandler.Login db now cfg jti email pw =
      (UserRepository.UpdateRefreshToken db u.id
        (mintedRefresh now u cfg jti),
       .error (403, "Account is deactivated")) := by
    unfold AuthHandler.Login
    rw [hlog]
    simp [hinactive]
  have hget : ∀ tokR : auth.Token, UserRepository.GetUserByEmail
      (UserRepository.UpdateRefreshToken db u.id tokR) email =
      some { u with refreshToken := some tokR } := by
    intro tokR
    simp only [UserRepository.GetUserByEmail,
      UserRepository.UpdateRefreshToken]
    rw [find?_map_pres (fun v : User => v.email == email)
      (fun v : User =>
        if v.id == u.id then { v with refreshToken := some tokR } else v)
      (by intro x; by_cases hx : x.id == u.id <;> simp [hx])]
    rw [show db.users.find? (fun v => v.email == email) = some u from hu]
    simp
  refine ⟨by rw [hhand], by rw [hhand], ?_, ?_⟩
  · rw [hhand]
    exact hget _
  · intro hne hdb
    rw [hhand] at hdb
    have hdb2 : UserRepository.UpdateRefreshToken db u.id
        (mintedRefresh now u cfg jti) = db := hdb
    have h3 := hget (mintedRefresh now u cfg jti)
    rw [hdb2, hu] at h3
    exact hne (congrArg User.refreshToken (Option.some.inj h3))

def c10User : User :=
  ⟨"u9", "d@x.com", "D", "local", "", bcryptHashOf "pw9", none, ["user"],
   false, 0, 0⟩

def c10DB : DB := ⟨[c10User], []⟩

/-- C10 witness: a concrete deactivated account with the correct
password — the handler answers 403 but the database state changed. -/
theorem C10_witness :
    (AuthHandler.Login c10DB 3600 c1Cfg "j10" "d@x.com" "pw9").2 =
      .error (403, "Account is deactivated") ∧
    (AuthHandler.Login c10DB 3600 c1Cfg "j10" "d@x.com" "pw9").1 ≠
      c10DB := by
  have h := C10_login_persists_refresh_before_active_check c10DB 3600
    c1Cfg "j10" "d@x.com" "pw9" c10User rfl rfl rfl
  exact ⟨h.1, h.2.2.2 (by simp [c10User, mintedRefresh])⟩
